import Mathlib

/-!
Verification development for `lmstudio_webchat.py`, a single-file Streamlit
chat client that forwards a transcript to an OpenAI-style chat-completions
endpoint and incrementally parses the streamed response.

The embedding models:
  * the stream consumer `send_message_stream` (lines 26-86 of the source),
    including the Python-level semantics of the parsing loop body
    (`json.loads`, `in`, `len`, subscripting, `.get`, truthiness), so that
    exceptions raised by the loop body on non-dict payloads are represented
    faithfully;
  * the chat-input handler (lines 200-228), i.e. the transcript commit rule;
  * the sidebar URL / custom-model validation (lines 130-176);
  * persona replacement, session initialisation and `reset_chat`
    (lines 93-98, 184-190).

Transport behaviour (what `requests.post` / `iter_lines` deliver) is
abstracted as an explicit `Transport` value: either an exception raised
while establishing the request (connection failure, or the `HTTPError`
raised by `raise_for_status` on a non-2xx status), or a list of already
decoded lines optionally followed by an exception raised mid-iteration.
UI side effects (`st.error`, `st.chat_message`, rendering) are not modelled;
only the data flow that the claims are about is.
-/

namespace LmStudioWebchat

/-! ### Generic character/string helpers (kernel-reducible replacements for
`str` methods used by the source) -/

/-- Does the character list `p` occur as an initial run of `cs`?
Models Python `cs.startswith(p)` on the underlying characters. -/
def charsStart : List Char → List Char → Bool
  | [], _ => true
  | _ :: _, [] => false
  | p :: ps, c :: cs => p == c && charsStart ps cs

/-- `s.startswith(pat)` for Lean strings, via the character lists. -/
def strStarts (s pat : String) : Bool :=
  charsStart pat.data s.data

/-- Does `pat` occur as a contiguous run anywhere in `cs`?
Models Python `pat in s` for strings (substring containment). -/
def charsContain : List Char → List Char → Bool
  | cs, pat =>
    match cs with
    | [] => pat.isEmpty
    | _ :: rest => charsStart pat cs || charsContain rest pat

/-- The whitespace set of Python `str.strip()` restricted to ASCII
(space, tab, newline, carriage return, vertical tab, form feed).
The source never feeds non-ASCII whitespace to `.strip()`. -/
def pySpace (c : Char) : Bool :=
  c == ' ' || c == '\t' || c == '\n' || c == '\r' || c == '\x0b' || c == '\x0c'

/-- Python `s.strip()`. -/
def pyStrip (s : String) : String :=
  ⟨((s.data.dropWhile pySpace).reverse.dropWhile pySpace).reverse⟩

/-- Python slicing `s[n:]`. -/
def strDropN (s : String) (n : Nat) : String :=
  ⟨s.data.drop n⟩

/-- Concatenation of a list of strings; models the value `st.write_stream`
returns (the full concatenated string) when every chunk is a string. -/
def strJoin : List String → String
  | [] => ""
  | s :: rest => s ++ strJoin rest

/-! ### JSON values, as produced by Python `json.loads` -/

/-- A parsed JSON value. Numbers keep Python's int/float distinction
(`json.loads` yields `int` for integer literals and `float` otherwise);
a float is stored as decimal mantissa and exponent, which preserves
zero-ness (the only thing the source's truthiness test consumes). -/
inductive JsonValue where
  | null : JsonValue
  | bool (b : Bool) : JsonValue
  | int (n : Int) : JsonValue
  | float (mantissa : Int) (exponent : Int) : JsonValue
  | str (s : String) : JsonValue
  | arr (elems : List JsonValue) : JsonValue
  | obj (fields : List (String × JsonValue)) : JsonValue

/-- The Python type name of a JSON value, as it appears in `TypeError` /
`AttributeError` messages. -/
def JsonValue.pyTypeName : JsonValue → String
  | .null => "NoneType"
  | .bool _ => "bool"
  | .int _ => "int"
  | .float _ _ => "float"
  | .str _ => "str"
  | .arr _ => "list"
  | .obj _ => "dict"

/-- Python truthiness of a JSON value (`if content:` in the source). -/
def JsonValue.truthy : JsonValue → Bool
  | .null => false
  | .bool b => b
  | .int n => n != 0
  | .float m _ => m != 0
  | .str s => !s.data.isEmpty
  | .arr xs => !xs.isEmpty
  | .obj fs => !fs.isEmpty

/-- Python `str()` of a JSON value, used only if a truthy non-string
`content` were yielded and rendered by `st.write_stream` (no claim
exercises this; string fragments pass through unchanged). -/
def JsonValue.pyStr : JsonValue → String
  | .null => "None"
  | .bool true => "True"
  | .bool false => "False"
  | .int n => toString n
  | .float m e => toString m ++ "e" ++ toString e
  | .str s => s
  | .arr _ => "[...]"
  | .obj _ => "\x7b...\x7d"

/-! ### A JSON parser modelling `json.loads`

Fuel-based recursive descent over the character list. The fuel only bounds
the nesting depth (every nesting level consumes at least one character), so
`length + 1` fuel is always sufficient. Python's non-standard `NaN` /
`Infinity` extensions are not modelled (no payload in this development uses
them). Object keys are deduplicated exactly as Python's dict building does:
a repeated key keeps its first position but takes the last value. -/

/-- JSON whitespace (RFC 8259: space, tab, newline, carriage return). -/
def jsonWs (c : Char) : Bool :=
  c == ' ' || c == '\t' || c == '\n' || c == '\r'

/-- Drop leading JSON whitespace. -/
def skipWs : List Char → List Char
  | [] => []
  | c :: cs => if jsonWs c then skipWs cs else c :: cs

/-- Hexadecimal digit value, for `\uXXXX` escapes. -/
def hexDigit (c : Char) : Option Nat :=
  let n := c.toNat
  if 48 ≤ n && n ≤ 57 then some (n - 48)
  else if 97 ≤ n && n ≤ 102 then some (n - 87)
  else if 65 ≤ n && n ≤ 70 then some (n - 55)
  else none

/-- Parse the remainder of a JSON string (the opening quote already
consumed), handling the standard escapes. Surrogate-pair combination is
not modelled (no payload here uses astral-plane escapes). -/
def parseJStringAux : Nat → List Char → List Char → Option (String × List Char)
  | 0, _, _ => none
  | _ + 1, [], _ => none
  | f + 1, c :: rest, acc =>
    if c == '"' then some (⟨acc.reverse⟩, rest)
    else if c == '\\' then
      match rest with
      | [] => none
      | e :: rest2 =>
        if e == '"' then parseJStringAux f rest2 ('"' :: acc)
        else if e == '\\' then parseJStringAux f rest2 ('\\' :: acc)
        else if e == '/' then parseJStringAux f rest2 ('/' :: acc)
        else if e == 'b' then parseJStringAux f rest2 ('\x08' :: acc)
        else if e == 'f' then parseJStringAux f rest2 ('\x0c' :: acc)
        else if e == 'n' then parseJStringAux f rest2 ('\n' :: acc)
        else if e == 'r' then parseJStringAux f rest2 ('\r' :: acc)
        else if e == 't' then parseJStringAux f rest2 ('\t' :: acc)
        else if e == 'u' then
          match rest2 with
          | h1 :: h2 :: h3 :: h4 :: rest3 =>
            match hexDigit h1, hexDigit h2, hexDigit h3, hexDigit h4 with
            | some a, some b, some c2, some d =>
              parseJStringAux f rest3
                (Char.ofNat (((a * 16 + b) * 16 + c2) * 16 + d) :: acc)
            | _, _, _, _ => none
          | _ => none
        else none
    else if c.toNat < 32 then none
    else parseJStringAux f rest (c :: acc)

/-- Numeric value of a run of decimal digits. -/
def digitsVal (ds : List Char) : Nat :=
  ds.foldl (fun a c => a * 10 + (c.toNat - 48)) 0

/-- Assemble a parsed JSON number from its pieces. -/
def mkNum (neg : Bool) (intDs frDs : List Char) (exp : Int) (isF : Bool) :
    JsonValue :=
  let mag : Int := Int.ofNat (digitsVal (intDs ++ frDs))
  let mant : Int := if neg then -mag else mag
  if isF then .float mant (exp - Int.ofNat frDs.length)
  else .int mant

/-- Parse an optional exponent part and finish the number. -/
def finishNum (neg : Bool) (intDs frDs : List Char) (isF : Bool)
    (cs : List Char) : Option (JsonValue × List Char) :=
  match cs with
  | e :: cs1 =>
    if e == 'e' || e == 'E' then
      let signed : Int × List Char :=
        match cs1 with
        | '+' :: t => (1, t)
        | '-' :: t => (-1, t)
        | _ => (1, cs1)
      let eds := signed.2.takeWhile Char.isDigit
      if eds.isEmpty then none
      else
        some (mkNum neg intDs frDs (signed.1 * Int.ofNat (digitsVal eds)) true,
          signed.2.drop eds.length)
    else some (mkNum neg intDs frDs 0 isF, cs)
  | [] => some (mkNum neg intDs frDs 0 isF, [])

/-- Parse a JSON number (RFC 8259 grammar: optional minus, no leading
zeros, optional fraction, optional exponent). -/
def parseNumber (cs : List Char) : Option (JsonValue × List Char) :=
  let split : Bool × List Char :=
    match cs with
    | '-' :: t => (true, t)
    | _ => (false, cs)
  let intDs := split.2.takeWhile Char.isDigit
  let cs2 := split.2.drop intDs.length
  if intDs.isEmpty then none
  else if intDs.length > 1 && intDs.head? == some '0' then none
  else
    match cs2 with
    | '.' :: cs3 =>
      let fr := cs3.takeWhile Char.isDigit
      if fr.isEmpty then none
      else finishNum split.1 intDs fr true (cs3.drop fr.length)
    | _ => finishNum split.1 intDs [] false cs2

/-- Literal spellings. -/
def trueChars : List Char := ['t', 'r', 'u', 'e']

def falseChars : List Char := ['f', 'a', 'l', 's', 'e']

def nullChars : List Char := ['n', 'u', 'l', 'l']

/-- Recognise a fixed literal at the head of the input. -/
def expectLit (lit : List Char) (cs : List Char) (v : JsonValue) :
    Option (JsonValue × List Char) :=
  if charsStart lit cs then some (v, cs.drop lit.length) else none

/-- Insert a key/value pair into an object under construction, with
Python-dict duplicate-key semantics: an existing key keeps its position
but takes the new value. -/
def objInsert (fields : List (String × JsonValue)) (k : String)
    (v : JsonValue) : List (String × JsonValue) :=
  match fields with
  | [] => [(k, v)]
  | (k0, v0) :: rest =>
    if k0 == k then (k0, v) :: rest else (k0, v0) :: objInsert rest k v

/-- Parse the comma-separated members of an object, after the opening
brace, given a parser `pv` for one value. The local fuel bounds the number
of members (each consumes input). -/
def parseMembersAux (pv : List Char → Option (JsonValue × List Char)) :
    Nat → List Char → List (String × JsonValue) →
    Option (JsonValue × List Char)
  | 0, _, _ => none
  | f + 1, cs, acc =>
    match cs with
    | '"' :: rest =>
      match parseJStringAux (rest.length + 1) rest [] with
      | none => none
      | some (k, r1) =>
        match skipWs r1 with
        | ':' :: r2 =>
          match pv (skipWs r2) with
          | none => none
          | some (v, r3) =>
            let acc2 := objInsert acc k v
            match skipWs r3 with
            | ',' :: r4 => parseMembersAux pv f (skipWs r4) acc2
            | '\x7d' :: r4 => some (.obj acc2, r4)
            | _ => none
        | _ => none
    | _ => none

/-- Parse the comma-separated elements of an array, after the opening
bracket, given a parser `pv` for one value. -/
def parseElemsAux (pv : List Char → Option (JsonValue × List Char)) :
    Nat → List Char → List JsonValue → Option (JsonValue × List Char)
  | 0, _, _ => none
  | f + 1, cs, acc =>
    match pv cs with
    | none => none
    | some (v, r1) =>
      match skipWs r1 with
      | ',' :: r2 => parseElemsAux pv f (skipWs r2) (acc ++ [v])
      | ']' :: r2 => some (.arr (acc ++ [v]), r2)
      | _ => none

/-- Dispatch on the first character and parse one JSON value, given a
parser `pv` for strictly nested values. The input is assumed
whitespace-skipped. -/
def parseValueCore (pv : List Char → Option (JsonValue × List Char))
    (cs : List Char) : Option (JsonValue × List Char) :=
  match cs with
  | [] => none
  | c :: rest =>
    if c == '"' then
      match parseJStringAux (rest.length + 1) rest [] with
      | some (s, r) => some (.str s, r)
      | none => none
    else if c == '\x7b' then
      match skipWs rest with
      | '\x7d' :: r2 => some (.obj [], r2)
      | cs2 => parseMembersAux pv (cs2.length + 1) cs2 []
    else if c == '[' then
      match skipWs rest with
      | ']' :: r2 => some (.arr [], r2)
      | cs2 => parseElemsAux pv (cs2.length + 1) cs2 []
    else if c == 't' then expectLit trueChars cs (.bool true)
    else if c == 'f' then expectLit falseChars cs (.bool false)
    else if c == 'n' then expectLit nullChars cs .null
    else parseNumber cs

/-- One JSON value at nesting-depth fuel `f`. -/
def parseValue : Nat → List Char → Option (JsonValue × List Char)
  | 0, _ => none
  | f + 1, cs => parseValueCore (parseValue f) cs

/-- Python `json.loads`: parse a complete document, rejecting leading or
trailing garbage; `none` models a raised `json.JSONDecodeError`. -/
def json_loads (s : String) : Option JsonValue :=
  match parseValue (s.data.length + 1) (skipWs s.data) with
  | some (v, rest) => if (skipWs rest).isEmpty then some v else none
  | none => none

/-! ### Python exception values reaching the generator's handlers -/

/-- An exception as dispatched by the two `except` clauses of
`send_message_stream`: `request` is any `requests.exceptions.RequestException`
(connection refused, DNS failure, the `HTTPError` from `raise_for_status`,
a mid-stream `ChunkedEncodingError`, ...), `other` is any other `Exception`
(e.g. a `TypeError` raised by the loop body). The payload is Python's
`str(e)`. -/
inductive PyExc where
  | request (msg : String) : PyExc
  | other (msg : String) : PyExc
  deriving DecidableEq

/-! ### Python-level semantics of the loop body (lines 66-72)

The body runs `"choices" in data`, `len(data["choices"])`,
`data["choices"][0].get("delta", \x7b\x7d)`, `delta.get("content")` and
`if content:` on a value produced by `json.loads`, which need not be a
dict; each step is modelled as `Except PyExc _` so that the `TypeError` /
`AttributeError` / `KeyError` such a step raises on the wrong type is
carried to the generator's outer handlers. -/

/-- Python `key in v` for a string key: key membership for dicts, element
equality for lists, substring test for strings, `TypeError` otherwise. -/
def pyInStr (key : String) (v : JsonValue) : Except PyExc Bool :=
  match v with
  | .obj fields => .ok (fields.any (fun p => p.1 == key))
  | .arr xs =>
    .ok (xs.any (fun x => match x with | .str s => s == key | _ => false))
  | .str s => .ok (charsContain s.data key.data)
  | v =>
    .error (.other ("argument of type \x27" ++ v.pyTypeName ++
      "\x27 is not iterable"))

/-- Python `v[key]` for a string key. Only dicts support it; the other
shapes raise (`KeyError` is unreachable here because the source checks
`key in v` first). -/
def pySubscrStr (v : JsonValue) (key : String) : Except PyExc JsonValue :=
  match v with
  | .obj fields =>
    match fields.find? (fun p => p.1 == key) with
    | some p => .ok p.2
    | none => .error (.other ("\x27" ++ key ++ "\x27"))
  | .arr _ =>
    .error (.other ("list indices must be integers or slices, not str"))
  | .str _ => .error (.other ("string indices must be integers"))
  | v =>
    .error (.other ("\x27" ++ v.pyTypeName ++ "\x27 object is not subscriptable"))

/-- Python `len(v)`. -/
def pyLen (v : JsonValue) : Except PyExc Nat :=
  match v with
  | .str s => .ok s.data.length
  | .arr xs => .ok xs.length
  | .obj fs => .ok fs.length
  | v =>
    .error (.other ("object of type \x27" ++ v.pyTypeName ++
      "\x27 has no len()"))

/-- Python `v[0]`. -/
def pyIndex0 (v : JsonValue) : Except PyExc JsonValue :=
  match v with
  | .arr (x :: _) => .ok x
  | .arr [] => .error (.other ("list index out of range"))
  | .str s =>
    match s.data with
    | c :: _ => .ok (.str ⟨[c]⟩)
    | [] => .error (.other ("string index out of range"))
  | .obj fields =>
    match fields.find? (fun p => p.1 == "0") with
    | some p => .ok p.2
    | none => .error (.other ("0"))
  | v =>
    .error (.other ("\x27" ++ v.pyTypeName ++ "\x27 object is not subscriptable"))

/-- Python `v.get(key, dflt)`: dict lookup with default; anything else has
no `.get` attribute and raises `AttributeError`. -/
def pyDictGet (v : JsonValue) (key : String) (dflt : JsonValue) :
    Except PyExc JsonValue :=
  match v with
  | .obj fields =>
    match fields.find? (fun p => p.1 == key) with
    | some p => .ok p.2
    | none => .ok dflt
  | v =>
    .error (.other ("\x27" ++ v.pyTypeName ++
      "\x27 object has no attribute \x27get\x27"))

/-! ### The stream consumer `send_message_stream` (lines 26-86) -/

/-- What processing one non-empty decoded line does. -/
inductive LineResult where
  | skip : LineResult
  | emit (s : String) : LineResult
  | stop : LineResult
  | raiseExc (e : PyExc) : LineResult
  deriving DecidableEq

/-- The literal record marker of line 53 (`'data: '`). -/
def dataMarker : String := "data: "

/-- The termination sentinel of line 58 (`'[DONE]'`). -/
def doneSentinel : String := "[DONE]"

/-- The key strings consumed by the loop body. -/
def choicesKey : String := "choices"

def deltaKey : String := "delta"

def contentKey : String := "content"

/-- Lines 66-72: extract `choices[0].delta.content` from a parsed payload,
with faithful Python semantics on each step (a wrongly-typed payload makes
a step raise, which the generator's `except Exception` turns into one final
error fragment). A truthy non-string `content` would be yielded as its
`str()` rendering (`st.write_stream` stringifies chunks). -/
def extractContent (data : JsonValue) : LineResult :=
  match pyInStr choicesKey data with
  | .error e => .raiseExc e
  | .ok false => .skip
  | .ok true =>
    match pySubscrStr data choicesKey with
    | .error e => .raiseExc e
    | .ok choices =>
      match pyLen choices with
      | .error e => .raiseExc e
      | .ok n =>
        if n == 0 then .skip
        else
          match pyIndex0 choices with
          | .error e => .raiseExc e
          | .ok first =>
            match pyDictGet first deltaKey (.obj []) with
            | .error e => .raiseExc e
            | .ok delta =>
              match pyDictGet delta contentKey .null with
              | .error e => .raiseExc e
              | .ok content =>
                if content.truthy then .emit content.pyStr else .skip

/-- Lines 48-76: the body of `for line in response.iter_lines()`. Empty
lines and lines without the `data: ` marker are skipped; the payload is the
line minus its first 6 characters, stripped; the sentinel breaks the loop;
a `json.JSONDecodeError` is swallowed (`pass`); otherwise the loop body
runs on the parsed value. -/
def processLine (line : String) : LineResult :=
  if line.data.isEmpty then .skip
  else if charsStart dataMarker.data line.data then
    let dataStr := pyStrip (strDropN line 6)
    if dataStr.data == doneSentinel.data then .stop
    else
      match json_loads dataStr with
      | none => .skip
      | some v => extractContent v
  else .skip

/-- Lines 78-86: the text of the fragment the two `except` handlers yield.
The `RequestException` handler also calls `st.error` twice (UI only, not
modelled) and appends a period to the message; the generic handler does
not. -/
def excFragment : PyExc → String
  | .request msg => "⚠️ API Error: " ++ msg ++ "."
  | .other msg => "⚠️ An unknown error occurred: " ++ msg

/-- The transport's contribution to one call: either an exception raised
while establishing the request (`requests.post` or `raise_for_status`,
lines 32-44), or the decoded lines `iter_lines` delivers, optionally
followed by an exception it raises mid-iteration. -/
inductive Transport where
  | raise (e : PyExc) : Transport
  | stream (lines : List String) (tail : Option PyExc) : Transport
  deriving DecidableEq

/-- Consume the delivered lines in order. A `break` on the sentinel ends
the generator before any pending mid-iteration exception is raised; an
exception raised by the loop body or by `iter_lines` itself reaches the
`except` handlers, which yield exactly one final error fragment. -/
def consumeLines : List String → Option PyExc → List String
  | [], tail =>
    match tail with
    | none => []
    | some e => [excFragment e]
  | l :: ls, tail =>
    match processLine l with
    | .skip => consumeLines ls tail
    | .emit s => s :: consumeLines ls tail
    | .stop => []
    | .raiseExc e => [excFragment e]

/-- The full fragment sequence produced by one call of
`send_message_stream` (lines 26-86), as a function of the transport's
behaviour. The generator never lets an exception escape: every failure
becomes an in-band fragment. -/
def send_message_stream : Transport → List String
  | .raise e => [excFragment e]
  | .stream lines tail => consumeLines lines tail

/-! ### Transcript data model and the chat-input handler (lines 184-228) -/

/-- The role strings used by the source. -/
def systemRole : String := "system"

def userRole : String := "user"

def assistantRole : String := "assistant"

/-- One transcript entry (a `\x7b"role": ..., "content": ...\x7d` dict). -/
structure Message where
  role : String
  content : String
  deriving DecidableEq

/-- The marker prefix tested by line 227 (`reply.startswith("⚠️")`). -/
def warnMarker : String := "⚠️"

/-- Line 186 / the body of `reset_chat` (line 98): a fresh transcript is a
single system message carrying the active persona text. -/
def initMessages (system_prompt : String) : List Message :=
  [{ role := systemRole, content := system_prompt }]

/-- `reset_chat` (lines 93-98) re-initialises the transcript with the
current `system_prompt`. -/
def reset_chat (system_prompt : String) : List Message :=
  initMessages system_prompt

/-- Lines 188-190: when the persona changed, `messages[0]["content"]` is
replaced in place (no append). On an empty transcript the source's
`messages[0]` would raise `IndexError`, but that state is unreachable:
every operation keeps the transcript non-empty. -/
def applyPersona (messages : List Message) (system_prompt : String) :
    List Message :=
  match messages with
  | [] => []
  | m :: rest =>
    if m.content != system_prompt then
      { role := m.role, content := system_prompt } :: rest
    else m :: rest

/-- Lines 200-228: one submission of the chat input. If the sidebar has
validation errors, only a notice is rendered (UI, not modelled) and the
transcript is untouched; the stream is never opened. Otherwise the user
message is appended, the stream is consumed (`st.write_stream` returns the
concatenation `reply` of all fragments), and `reply` is committed as an
assistant message unless it starts with the warning marker. -/
def chatInputHandler (messages : List Message) (prompt : String)
    (has_validation_errors : Bool) (t : Transport) : List Message :=
  if has_validation_errors then messages
  else
    let withUser := messages ++ [{ role := userRole, content := prompt }]
    let reply := strJoin (send_message_stream t)
    if strStarts reply warnMarker then withUser
    else withUser ++ [{ role := assistantRole, content := reply }]

/-! ### Sidebar validation (lines 130-176) -/

/-- The scheme characters accepted by `urllib.parse.urlsplit`
(ASCII letters, digits, `+`, `-`, `.`). -/
def schemeChar (c : Char) : Bool :=
  c.isAlphanum || c == '+' || c == '-' || c == '.'

/-- The scheme/netloc split of `urllib.parse.urlparse`, which is all the
source consumes of the parse result. The scheme is the (lowercased) part
before the first `:` when that part starts with an ASCII letter and uses
only scheme characters; the netloc follows a leading `//` and runs to the
first `/`, `?` or `#`. -/
def urlparse (url : String) : String × String :=
  let cs := url.data
  let split : String × List Char :=
    match cs.findIdx? (fun c => c == ':') with
    | none => ("", cs)
    | some i =>
      match cs with
      | [] => ("", cs)
      | c0 :: _ =>
        if 0 < i && c0.isAlpha && (cs.take i).all schemeChar then
          (⟨(cs.take i).map Char.toLower⟩, cs.drop (i + 1))
        else ("", cs)
  let rest := split.2
  let netloc : String :=
    match rest with
    | '/' :: '/' :: r2 =>
      ⟨r2.takeWhile (fun c => !(c == '/' || c == '?' || c == '#'))⟩
    | _ => ""
  (split.1, netloc)

/-- Lines 138-147: the endpoint input is stripped; an empty result is an
error; otherwise it must parse with a truthy scheme and netloc. -/
def url_is_valid (api_url_input : String) : Bool :=
  let stripped := pyStrip api_url_input
  if stripped.data.isEmpty then false
  else
    let parsed := urlparse stripped
    !parsed.1.data.isEmpty && !parsed.2.data.isEmpty

/-- The `"Custom"` option label of line 152. -/
def customLabel : String := "Custom"

/-- Lines 162-172: choosing `Custom` with an empty (stripped) custom model
name invalidates the configuration; any other choice is valid. -/
def custom_model_is_valid (model_choice : String)
    (custom_model_name : String) : Bool :=
  if model_choice.data == customLabel.data then
    !(pyStrip custom_model_name).data.isEmpty
  else true

/-- Line 176. -/
def has_validation_errors (api_url_input model_choice custom_model_name :
    String) : Bool :=
  !url_is_valid api_url_input ||
    !custom_model_is_valid model_choice custom_model_name

/-- The transcript invariant of claim C8: the transcript is non-empty and
its head is the system message. -/
def headIsSystem : List Message → Bool
  | [] => false
  | m :: _ => m.role == systemRole

/-! ### Concrete inputs used by the claims -/

/-- The first crafted record of the spec's stream example. -/
def recHel : String :=
  "data: \x7b\"choices\":[\x7b\"delta\":\x7b\"content\":\"Hel\"\x7d\x7d]\x7d"

/-- The second crafted record of the spec's stream example. -/
def recLo : String :=
  "data: \x7b\"choices\":[\x7b\"delta\":\x7b\"content\":\"lo\"\x7d\x7d]\x7d"

/-- The sentinel record. -/
def recDone : String := "data: [DONE]"

/-- A data record whose payload is not JSON. -/
def recNotJson : String := "data: not-json"

/-- A data record whose payload is valid JSON but not an object. -/
def recInt : String := "data: 42"

/-- The payload of `recInt`. -/
def intPayload : String := "42"

/-- `str(e)` of the `TypeError` raised by `"choices" in 42`. -/
def intNotIterableMsg : String :=
  "argument of type \x27int\x27 is not iterable"

/-- The default persona text (`personas["Default Assistant"]`). -/
def defaultPersona : String := "You are a helpful AI assistant."

/-- The `"Philosopher"` persona text. -/
def philosopherPersona : String :=
  "You are a thoughtful philosopher who gives deep insights."

/-- A fresh transcript's system message under the default persona. -/
def sysDefault : Message :=
  { role := systemRole, content := defaultPersona }

/-- A sample user prompt. -/
def promptHi : String := "Hi"

/-- A sample `str(e)` for a connection failure. -/
def refusedMsg : String := "refused"

/-- A sample `str(e)` for a mid-stream transport failure. -/
def brokenMsg : String := "Connection broken"

/-- An endpoint string lacking a scheme. -/
def urlNoScheme : String := "example.com"

/-- A well-formed endpoint string. -/
def urlWithScheme : String := "https://example.com"

/-- A predefined model identifier. -/
def mistralModel : String := "mistral"

/-- The empty string (empty custom model name). -/
def emptyStr : String := ""

end LmStudioWebchat

namespace LmStudioWebchat

/-! ### Helper lemmas (shared) -/

/-- A prefix of `a` is a prefix of `a ++ b`. -/
theorem charsStart_append_left (p a b : List Char)
    (h : charsStart p a = true) : charsStart p (a ++ b) = true := by
  induction p generalizing a with
  | nil => rfl
  | cons x xs ih =>
    cases a with
    | nil => simp [charsStart] at h
    | cons y ys =>
      simp only [charsStart, List.cons_append, Bool.and_eq_true] at h ⊢
      exact ⟨h.1, ih ys h.2⟩

/-- Every error fragment starts with the warning marker. -/
theorem charsStart_marker_excFragment (e : PyExc) :
    charsStart warnMarker.data (excFragment e).data = true := by
  cases e with
  | request m =>
    show charsStart warnMarker.data
        (("⚠️ API Error: " ++ m ++ ".").data) = true
    rw [String.data_append, String.data_append]
    exact charsStart_append_left _ _ _
      (charsStart_append_left _ _ _ (by decide))
  | other m =>
    show charsStart warnMarker.data
        (("⚠️ An unknown error occurred: " ++ m).data) = true
    rw [String.data_append]
    exact charsStart_append_left _ _ _ (by decide)

/-- The reply assembled from a fragment list that begins with an error
fragment starts with the warning marker. -/
theorem strStarts_strJoin_exc (e : PyExc) (rest : List String) :
    strStarts (strJoin (excFragment e :: rest)) warnMarker = true := by
  show charsStart warnMarker.data (excFragment e ++ strJoin rest).data = true
  rw [String.data_append]
  exact charsStart_append_left _ _ _ (charsStart_marker_excFragment e)

/-! ### Claim theorems -/

/-- C1: For the crafted input stream of records
`["data: \x7b"choices":[\x7b"delta":\x7b"content":"Hel"\x7d\x7d]\x7d",
"data: \x7b"choices":[\x7b"delta":\x7b"content":"lo"\x7d\x7d]\x7d",
"data: [DONE]"]`, the parsing loop of `send_message_stream` yields exactly
`["Hel", "lo"]` and then terminates: no further fragments are emitted even
if arbitrary additional records (and even a pending mid-stream exception)
follow the sentinel record. -/
theorem c1_stream_yields_hello_then_stops (extra : List String)
    (tail : Option PyExc) :
    send_message_stream
        (.stream ([recHel, recLo, recDone] ++ extra) tail) =
      ["Hel", "lo"] := by
  rfl

/-- C3: a transport-level failure raised while establishing the request
(connection refused, DNS failure — `requests.post` raising a
`RequestException` — or a non-2xx status — `raise_for_status` raising
`HTTPError`) makes `send_message_stream` emit exactly one fragment, the
marker-prefixed human-readable error text `"⚠️ API Error: " ++ str(e) ++
"."`, and then terminate; no exception propagates (the result is an
ordinary fragment list). -/
theorem c3_request_failure_single_marker_fragment (m : String) :
    send_message_stream (.raise (.request m)) =
      [excFragment (.request m)] ∧
    excFragment (.request m) = "⚠️ API Error: " ++ m ++ "." ∧
    strStarts (excFragment (.request m)) warnMarker = true :=
  ⟨rfl, rfl, charsStart_marker_excFragment (.request m)⟩

/-- C7: a data record whose payload fails to parse as JSON
(`"data: not-json"`) is silently discarded: consuming it is the same as
consuming the rest of the stream (no fragment, no termination, nothing
surfaced), and in particular a subsequent valid data record still yields
its fragment. -/
theorem c7_notjson_record_skipped :
    (∀ (rest : List String) (tail : Option PyExc),
      consumeLines (recNotJson :: rest) tail = consumeLines rest tail) ∧
    send_message_stream (.stream [recNotJson, recLo, recDone] none) =
      ["lo"] :=
  ⟨fun _ _ => rfl, rfl⟩

/-- C10: the data record `"data: 42"` has a payload that parses as valid
JSON (`42`, not a JSON object); the membership test `"choices" in data`
raises `TypeError`, the generic `except Exception` handler fires, and the
sequence terminates after yielding exactly one marker-prefixed
"unknown error" fragment — regardless of what records would have
followed. -/
theorem c10_nondict_payload_raises (rest : List String)
    (tail : Option PyExc) :
    json_loads intPayload = some (JsonValue.int 42) ∧
    processLine recInt = .raiseExc (.other intNotIterableMsg) ∧
    send_message_stream (.stream (recInt :: rest) tail) =
      [excFragment (.other intNotIterableMsg)] :=
  ⟨rfl, rfl, rfl⟩

/-- C2 counterexample: the claim quantifies over all transport errors,
"including ones that occur mid-stream after some content fragments have
already been yielded" — but when `iter_lines` raises after the fragment
`"Hel"` was yielded, the accumulated reply is
`"Hel⚠️ API Error: Connection broken."`, which does not start with the
marker, so the handler DOES append it as an assistant message: the turn is
not discarded. -/
theorem c2_counterexample_midstream_error_commits_turn :
    chatInputHandler [sysDefault] promptHi false
        (.stream [recHel] (some (.request brokenMsg))) =
      [sysDefault, { role := userRole, content := promptHi },
        { role := assistantRole,
          content := "Hel⚠️ API Error: Connection broken." }] := by
  decide

/-- C2 (amended): for every turn during which a transport error occurs at
request time — connection failure or non-success HTTP status, both raised
before any content fragment is yielded — the handler discards the turn:
only the user message is appended, no assistant message. (A transport
error surfacing mid-stream after content fragments have been yielded does
not discard the turn.) -/
theorem c2_amended_prestream_transport_error_discards_turn
    (msgs : List Message) (prompt m : String) :
    chatInputHandler msgs prompt false (.raise (.request m)) =
      msgs ++ [{ role := userRole, content := prompt }] := by
  have h : strStarts (strJoin (send_message_stream
      (Transport.raise (PyExc.request m)))) warnMarker = true :=
    strStarts_strJoin_exc (PyExc.request m) []
  simp [chatInputHandler, h]

/-- C4: whenever the accumulated stream text of a turn begins with the
error-marker glyph, the transcript after the turn has length `len(T) + 1`
(only the user message was appended), never `len(T) + 2`: the accumulated
string is not committed as an assistant message. -/
theorem c4_marker_reply_appends_only_user (msgs : List Message)
    (prompt : String) (t : Transport)
    (h : strStarts (strJoin (send_message_stream t)) warnMarker = true) :
    (chatInputHandler msgs prompt false t).length = msgs.length + 1 := by
  simp [chatInputHandler, h]

/-- C4 witness: concrete instance at a refused connection. -/
theorem c4_witness :
    strStarts (strJoin (send_message_stream
        (.raise (.request refusedMsg)))) warnMarker = true ∧
    (chatInputHandler [sysDefault] promptHi false
        (.raise (.request refusedMsg))).length = 1 + 1 :=
  ⟨by decide, c4_marker_reply_appends_only_user _ _ _ (by decide)⟩

/-- C5: for every transcript and valid configuration (no validation
errors), a turn appends exactly one user message and, on success (the
accumulated reply does not begin with the marker), exactly one assistant
message, in that order, and performs no other mutation: the previous
transcript survives unchanged as a prefix in both cases. -/
theorem c5_turn_appends_user_then_assistant (msgs : List Message)
    (prompt : String) (t : Transport) :
    (strStarts (strJoin (send_message_stream t)) warnMarker = false →
      chatInputHandler msgs prompt false t =
        msgs ++ [{ role := userRole, content := prompt },
          { role := assistantRole,
            content := strJoin (send_message_stream t) }]) ∧
    (strStarts (strJoin (send_message_stream t)) warnMarker = true →
      chatInputHandler msgs prompt false t =
        msgs ++ [{ role := userRole, content := prompt }]) := by
  constructor
  · intro h
    simp [chatInputHandler, h]
  · intro h
    simp [chatInputHandler, h]

/-- C5 witness: concrete successful turn committing `"Hello"`. -/
theorem c5_witness :
    strStarts (strJoin (send_message_stream
        (.stream [recHel, recLo, recDone] none))) warnMarker = false ∧
    chatInputHandler [sysDefault] promptHi false
        (.stream [recHel, recLo, recDone] none) =
      [sysDefault] ++ [{ role := userRole, content := promptHi },
        { role := assistantRole, content := "Hello" }] :=
  ⟨by decide,
    (c5_turn_appends_user_then_assistant _ _ _).1 (by decide)⟩

/-- C6: when the connection configuration is invalid
(`has_validation_errors` is true: empty or unparseable endpoint URL, or
empty custom model identifier), submitting a turn is rejected before any
network call — the result does not depend on the transport at all and the
transcript is unchanged. -/
theorem c6_invalid_config_rejects_turn (msgs : List Message)
    (prompt api_url_input model_choice custom_model_name : String)
    (t : Transport)
    (h : has_validation_errors api_url_input model_choice
      custom_model_name = true) :
    chatInputHandler msgs prompt
        (has_validation_errors api_url_input model_choice custom_model_name)
        t = msgs := by
  rw [h]
  rfl

/-- C6 witness: a scheme-less endpoint blocks the turn for any transport
behaviour. -/
theorem c6_witness :
    has_validation_errors urlNoScheme mistralModel emptyStr = true ∧
    chatInputHandler [sysDefault] promptHi
        (has_validation_errors urlNoScheme mistralModel emptyStr)
        (.stream [recHel, recLo, recDone] none) = [sysDefault] :=
  ⟨by decide, c6_invalid_config_rejects_turn _ _ _ _ _ _ (by decide)⟩

/-- C8: the invariant `transcript[0].role == "system"` holds in every
reachable state: it holds at initialisation and after reset, and it is
preserved by a persona change and by a full turn (which appends the user
and, on success, the assistant message). A persona change replaces the
head's content in place: the length and the tail of the transcript are
unchanged. -/
theorem c8_head_system_invariant :
    (∀ sp, headIsSystem (initMessages sp) = true) ∧
    (∀ sp, headIsSystem (reset_chat sp) = true) ∧
    (∀ msgs sp, headIsSystem msgs = true →
      headIsSystem (applyPersona msgs sp) = true) ∧
    (∀ msgs sp, headIsSystem msgs = true →
      (applyPersona msgs sp).length = msgs.length ∧
      (applyPersona msgs sp).drop 1 = msgs.drop 1) ∧
    (∀ msgs prompt hve t, headIsSystem msgs = true →
      headIsSystem (chatInputHandler msgs prompt hve t) = true) := by
  refine ⟨fun _ => rfl, fun _ => rfl, ?_, ?_, ?_⟩
  · intro msgs sp h
    cases msgs with
    | nil => simp [headIsSystem] at h
    | cons m rest =>
      simp only [applyPersona]
      split
      · exact h
      · exact h
  · intro msgs sp h
    cases msgs with
    | nil => simp [headIsSystem] at h
    | cons m rest =>
      simp only [applyPersona]
      split
      · exact ⟨rfl, rfl⟩
      · exact ⟨rfl, rfl⟩
  · intro msgs prompt hve t h
    cases msgs with
    | nil => simp [headIsSystem] at h
    | cons m rest =>
      simp only [chatInputHandler]
      split
      · exact h
      · split
        · simpa [headIsSystem, List.cons_append] using h
        · simpa [headIsSystem, List.cons_append] using h

/-- C8 witness: concrete instances of the preserved invariant. -/
theorem c8_witness :
    headIsSystem [sysDefault] = true ∧
    headIsSystem (applyPersona [sysDefault] philosopherPersona) = true ∧
    headIsSystem (chatInputHandler [sysDefault] promptHi false
      (.raise (.request refusedMsg))) = true :=
  ⟨by decide,
    c8_head_system_invariant.2.2.1 _ _ (by decide),
    c8_head_system_invariant.2.2.2.2 _ _ _ _ (by decide)⟩

/-- C9: endpoint validation rejects `"example.com"` (no scheme) and
accepts `"https://example.com"`; in general a string is accepted exactly
when, after stripping surrounding whitespace, it is non-empty and parses
to a URL whose scheme and network-location (host) components are both
non-empty. -/
theorem c9_url_validation :
    url_is_valid urlNoScheme = false ∧
    url_is_valid urlWithScheme = true ∧
    (∀ s, url_is_valid s =
      (!(pyStrip s).data.isEmpty &&
        (!(urlparse (pyStrip s)).1.data.isEmpty &&
          !(urlparse (pyStrip s)).2.data.isEmpty))) := by
  refine ⟨by decide, by decide, fun s => ?_⟩
  unfold url_is_valid
  by_cases h : (pyStrip s).data.isEmpty <;> simp [h]

end LmStudioWebchat
